import Mathlib

/-!
Shallow embedding of the rollup L1 data-fee calculator
(`core/types/rollup_l1_cost.go`): the FastLZ compression-length
estimator `FlzCompressLen`, the per-upgrade gas selector, and the fee
calculator `newL1CostFunc`, together with theorems checking the
natural-language specification against them.

Machine integers are modelled as `Nat` with explicit reduction modulo
`2^32` (Go `uint32`) or `2^64` (Go `uint64`) wherever the Go program
can wrap.  A Go slice read `ib[i]` that would panic with "index out of
range" is modelled by the error value `FlzErr.oob`.  Loops are run on
explicit fuel; `FlzErr.fuelOut` marks fuel exhaustion, and the fuel
supplied by the top-level entry point is large enough for every
terminating run on realistic inputs.
-/

namespace RollupL1Cost

/-- Modulus of Go `uint32` arithmetic. -/
def U32 : Nat := 4294967296

/-- Modulus of Go `uint64` arithmetic. -/
def U64 : Nat := 18446744073709551616

/-- Wrapping `uint32` subtraction: Go `a - b` on `uint32` operands. -/
def wsub32 (a b : Nat) : Nat := (a + (U32 - b % U32)) % U32

/-- Abnormal outcomes of running the Go code: an out-of-range slice
index (Go runtime panic), or exhaustion of the interpreter fuel. -/
inductive FlzErr where
  | oob
  | fuelOut
deriving DecidableEq, Repr

/-- Go closure `u32` inside `FlzCompressLen`: little-endian load of
four consecutive bytes, `uint32(ib[i]) | uint32(ib[i+1])<<8 |
uint32(ib[i+2])<<16 | uint32(ib[i+3])<<24`; reading past the end of
the slice is an `oob` error. -/
def flzU32 (ib : List Nat) (i : Nat) : Except FlzErr Nat :=
  match ib[i % U32]?, ib[(i + 1) % U32]?, ib[(i + 2) % U32]?, ib[(i + 3) % U32]? with
  | some b0, some b1, some b2, some b3 =>
      .ok ((b0 ||| (b1 <<< 8) ||| (b2 <<< 16) ||| (b3 <<< 24)) % U32)
  | _, _, _, _ => .error .oob

/-- Go closure `hash` inside `FlzCompressLen`:
`((2654435769 * x) >> 19) & 8191` in `uint32` arithmetic. -/
def flzHash (x : Nat) : Nat := (((2654435769 * x) % U32) >>> 19) &&& 8191

/-- Go closure `literals` inside `FlzCompressLen`: charge a run of `r`
literal bytes onto the accumulator `n`, in `uint32` arithmetic
(`n += 33*(r/32); r %= 32; if r != 0 { n += r + 1 }`). -/
def flzLiterals (r n : Nat) : Nat :=
  let n1 := (n + 33 * (r / 32)) % U32
  let r1 := r % 32
  if r1 ≠ 0 then (n1 + r1 + 1) % U32 else n1

/-- Match charge in `FlzCompressLen`:
`n += 3 * (1 + (l-3)/262); if l < 9 { n-- }` in `uint32` arithmetic. -/
def flzMatchCharge (l n : Nat) : Nat :=
  let n1 := (n + 3 * (1 + wsub32 l 3 / 262)) % U32
  if l < 9 then wsub32 n1 1 else n1

/-- Functional model of a store `ht[h] = v` into the 8192-entry hash
table (`make([]uint32, 8192)` starts zero-initialized, modelled as the
constant-zero function). -/
def htSet (ht : Nat → Nat) (h v : Nat) : Nat → Nat :=
  fun k => if k = h then v else ht k

/-- Comparison value `c` of the scan loop: `c := m + 1; if d < 8192 {
c = u32(r) & m }` with `m = 0xffffff`.  When the distance `d` is not
below 8192 no read happens and `c` is the widened value `m + 1`. -/
def flzC (ib : List Nat) (r d : Nat) : Except FlzErr Nat :=
  if d < 8192 then (flzU32 ib r).map (fun w => w % 16777216) else .ok 16777216

/-- Inner scan loop of `FlzCompressLen` (the unconditional `for` loop):
advances `i` until the end margin is reached or a match candidate with
`s == c` is found.  Returns the updated hash table, the cursor `i`
after the loop, and the previous offset `r` of the last candidate. -/
def flzInner (ib : List Nat) (bm9 : Nat) :
    Nat → (Nat → Nat) → Nat → Except FlzErr ((Nat → Nat) × Nat × Nat)
  | 0, _, _ => .error .fuelOut
  | fuel + 1, ht, i =>
    match flzU32 ib i with
    | .error e => .error e
    | .ok w =>
      let s := w % 16777216
      let h := flzHash s
      let r := ht h
      let ht1 := htSet ht h (i % U32)
      let d := wsub32 i r
      match flzC ib r d with
      | .error e => .error e
      | .ok c =>
        if bm9 ≤ i then .ok (ht1, i, r)
        else
          let i1 := (i + 1) % U32
          if s = c then .ok (ht1, i1, r)
          else flzInner ib bm9 fuel ht1 i1

/-- Match-extension loop of `FlzCompressLen`:
`for l < b-i && ib[r+l] == ib[i+l] { l++ }` in `uint32` arithmetic,
with out-of-range reads reported as `oob`. -/
def flzExtend (ib : List Nat) (b r i : Nat) : Nat → Nat → Except FlzErr Nat
  | 0, _ => .error .fuelOut
  | fuel + 1, l =>
    if l < wsub32 b i then
      match ib[(r + l) % U32]?, ib[(i + l) % U32]? with
      | some x, some y =>
          if x = y then flzExtend ib b r i fuel ((l + 1) % U32) else .ok l
      | _, _ => .error .oob
    else .ok l

/-- Outer scan loop of `FlzCompressLen` (`for i < b-9`), including the
final `literals(b + 4 - a)` charge performed after the loop exits.
`b` is the `uint32` value `len(ib) - 4`, `bm9` is `b - 9`, and `bp4`
is `b + 4`, all in `uint32` arithmetic. -/
def flzOuter (ib : List Nat) (b bm9 bp4 ifuel : Nat) :
    Nat → (Nat → Nat) → Nat → Nat → Nat → Except FlzErr Nat
  | 0, _, _, _, _ => .error .fuelOut
  | fuel + 1, ht, a, i, n =>
    if i < bm9 then
      match flzInner ib bm9 ifuel ht i with
      | .error e => .error e
      | .ok (ht1, i1, r) =>
        if bm9 ≤ i1 then .ok (flzLiterals (wsub32 bp4 a) n)
        else
          let i2 := wsub32 i1 1
          let n1 := if a < i2 then flzLiterals (wsub32 i2 a) n else n
          match flzExtend ib b r i2 ifuel 3 with
          | .error e => .error e
          | .ok l =>
            let i3 := (i2 + wsub32 l 2) % U32
            match flzU32 ib i3 with
            | .error e => .error e
            | .ok s =>
              let n2 := flzMatchCharge l n1
              let ht2 := htSet ht1 (flzHash (s % 16777216)) i3
              let i4 := (i3 + 1) % U32
              let ht3 := htSet ht2 (flzHash (s >>> 8)) i4
              let i5 := (i4 + 1) % U32
              flzOuter ib b bm9 bp4 ifuel fuel ht3 i5 i5 n2
    else .ok (flzLiterals (wsub32 bp4 a) n)

/-- `FlzCompressLen`: estimated FastLZ-compressed length of `ib`, after
the Go function of the same name (ported from solady.js).  `b =
uint32(len(ib)) - 4` in wrapping `uint32` arithmetic; the scan starts
at `i = 2` with an all-zero hash table, empty accumulator `n = 0` and
literal-run anchor `a = 0`. -/
def FlzCompressLen (ib : List Nat) : Except FlzErr Nat :=
  let len := ib.length % U32
  let b := wsub32 len 4
  flzOuter ib b (wsub32 b 9) ((b + 4) % U32) (ib.length + 64)
    (ib.length + 64) (fun _ => 0) 0 2 0

/-- `params.TxDataZeroGas`: gas per zero byte of transaction data. -/
def TxDataZeroGas : Nat := 4

/-- `params.TxDataNonZeroGasEIP2028`: gas per non-zero byte of
transaction data since EIP-2028. -/
def TxDataNonZeroGasEIP2028 : Nat := 16

/-- The two upgrade-activation booleans consulted by `newL1CostFunc`
(`config.IsRegolith(blockTime)` and `config.IsEclipse(blockTime)`). -/
structure UpgradeActivation where
  isRegolithActive : Bool
  isEclipseActive : Bool
deriving DecidableEq, Repr

/-- The byte-counting loop of the non-Eclipse branch of
`newL1CostFunc`: one pass over the data counting `(zeroes, ones)`. -/
def countBytes (data : List Nat) : Nat × Nat :=
  data.foldl (fun acc b => if b = 0 then (acc.1 + 1, acc.2) else (acc.1, acc.2 + 1)) (0, 0)

/-- The gas amount computed by the branch ladder of `newL1CostFunc`
(file version with Eclipse), in `uint64` arithmetic:
if Eclipse is active, `uint64(FlzCompressLen(data)) *
TxDataNonZeroGasEIP2028`; otherwise the zero/non-zero byte formula,
with `(ones + 68)` in place of `ones` before Regolith. -/
def selectorGas (upg : UpgradeActivation) (data : List Nat) : Except FlzErr Nat :=
  if upg.isEclipseActive then
    (FlzCompressLen data).map (fun c => c * TxDataNonZeroGasEIP2028 % U64)
  else
    let zo := countBytes data
    if upg.isRegolithActive then
      .ok ((zo.1 * TxDataZeroGas + zo.2 * TxDataNonZeroGasEIP2028) % U64)
    else
      .ok ((zo.1 * TxDataZeroGas + (zo.2 + 68) * TxDataNonZeroGasEIP2028) % U64)

/-- Result of one invocation of the fee calculator: either the
feature-gate-off outcome `(nil, nil)` or a `(fee, l1GasUsed)` pair. -/
inductive L1CostResult where
  | notApplicable
  | result (fee l1GasUsed : Nat)
deriving DecidableEq, Repr

/-- The closure returned by `newL1CostFunc` (file version with
Eclipse), applied to a payload: if `config.Optimism == nil` it returns
`(nil, nil)`; otherwise `l1GasUsed = gas + overhead` and
`fee = l1GasUsed * l1BaseFee * scalar / 1_000_000` in arbitrary
precision (`big.Int`) arithmetic, with a single truncating division at
the end. -/
def newL1CostFunc (optimism : Bool) (l1BaseFee overhead scalar : Nat)
    (upg : UpgradeActivation) (data : List Nat) : Except FlzErr L1CostResult :=
  if optimism = false then .ok .notApplicable
  else
    (selectorGas upg data).map fun gas =>
      let l1GasUsed := gas + overhead
      let l1Cost := l1GasUsed * l1BaseFee * scalar / 1000000
      .result l1Cost l1GasUsed

/-- `L1CostData` of the pre-Eclipse file version: cached zero/non-zero
byte counts of the payload. -/
structure L1CostDataV1 where
  zeroes : Nat
  ones : Nat
deriving DecidableEq, Repr

/-- `NewL1CostData` of the pre-Eclipse file version: count zero and
non-zero bytes of the payload. -/
def NewL1CostDataV1 (data : List Nat) : L1CostDataV1 :=
  ⟨(countBytes data).1, (countBytes data).2⟩

/-- The closure returned by `newL1CostFunc` in the pre-Eclipse file
version: same fee arithmetic, with only the Regolith flag and the
cached byte counts; `none` is the `(nil, nil)` outcome. -/
def newL1CostFuncV1 (optimism : Bool) (l1BaseFee overhead scalar : Nat)
    (isRegolith : Bool) (tx : L1CostDataV1) : Option (Nat × Nat) :=
  if optimism = false then none
  else
    let gas :=
      if isRegolith then
        (tx.zeroes * TxDataZeroGas + tx.ones * TxDataNonZeroGasEIP2028) % U64
      else
        (tx.zeroes * TxDataZeroGas + (tx.ones + 68) * TxDataNonZeroGasEIP2028) % U64
    let l1GasUsed := gas + overhead
    let l1Cost := l1GasUsed * l1BaseFee * scalar / 1000000
    some (l1Cost, l1GasUsed)

/-- Modelled from the spec: the serialized reference transaction of the
test vectors — "an empty-data transaction" built by `NewTransaction(0,
0x095e7baea6a6c7c4c2dfeb977efac326af552d87, 0, 0, 0, nil)`.  The
transaction-serialization routine is not part of this core; the bytes
are its legacy RLP encoding: list header, nonce 0, gasPrice 0, gas 0,
the 20-byte address, value 0, empty data, and zero V, R, S. -/
def emptyTxPayload : List Nat :=
  [0xdd, 0x80, 0x80, 0x80,
   0x94, 0x09, 0x5e, 0x7b, 0xae, 0xa6, 0xa6, 0xc7, 0xc4, 0xc2, 0xdf,
   0xeb, 0x97, 0x7e, 0xfa, 0xc3, 0x26, 0xaf, 0x55, 0x2d, 0x87,
   0x80, 0x80, 0x80, 0x80, 0x80]

theorem U32_pos : 0 < U32 := by norm_num [U32]

theorem flzLiterals_lt (r n : Nat) : flzLiterals r n < U32 := by
  unfold flzLiterals
  dsimp only
  split
  · exact Nat.mod_lt _ U32_pos
  · exact Nat.mod_lt _ U32_pos

theorem flzOuter_ok_lt (ib : List Nat) (b bm9 bp4 ifuel : Nat) :
    ∀ fuel ht a i n v, flzOuter ib b bm9 bp4 ifuel fuel ht a i n = Except.ok v → v < U32 := by
  intro fuel
  induction fuel with
  | zero => intro ht a i n v h; simp [flzOuter] at h
  | succ fuel ih =>
    intro ht a i n v h
    rw [flzOuter] at h
    split at h
    · split at h
      · simp at h
      · split at h
        · rw [Except.ok.injEq] at h
          subst h
          exact flzLiterals_lt _ _
        · dsimp only at h
          split at h
          · simp at h
          · split at h
            · simp at h
            · exact ih _ _ _ _ _ h
    · rw [Except.ok.injEq] at h
      subst h
      exact flzLiterals_lt _ _

theorem FlzCompressLen_ok_lt (ib : List Nat) (g : Nat)
    (h : FlzCompressLen ib = Except.ok g) : g < U32 := by
  unfold FlzCompressLen at h
  exact flzOuter_ok_lt _ _ _ _ _ _ _ _ _ _ _ h

/-- C1: with the feature gate on, for every payload, oracle parameters
and upgrade flags, whenever the gas selector produces a gas amount `g`
the calculator returns `l1GasUsed = g + overhead` and
`fee = floor(l1GasUsed * l1BaseFee * scalar / 1_000_000)`, with the
single truncating division applied once at the end after both
multiplications. -/
theorem claim1_fee_formula (l1BaseFee overhead scalar : Nat)
    (upg : UpgradeActivation) (data : List Nat) (g : Nat)
    (h : selectorGas upg data = Except.ok g) :
    newL1CostFunc true l1BaseFee overhead scalar upg data =
      Except.ok (L1CostResult.result
        ((g + overhead) * l1BaseFee * scalar / 1000000) (g + overhead)) := by
  simp [newL1CostFunc, h, Except.map]

/-- C1 witness: the fee formula at concrete inputs. -/
theorem claim1_fee_formula_witness :
    selectorGas ⟨false, false⟩ [] = Except.ok 1088 ∧
    newL1CostFunc true 3 5 7 ⟨false, false⟩ [] =
      Except.ok (L1CostResult.result ((1088 + 5) * 3 * 7 / 1000000) (1088 + 5)) :=
  ⟨rfl, claim1_fee_formula 3 5 7 ⟨false, false⟩ [] 1088 rfl⟩

/-- C2: with Eclipse active the gas amount is
`FlzCompressLen(payload) * 16` (the EIP-2028 non-zero-byte gas
constant), and the calculator's result does not depend on the Regolith
flag. -/
theorem claim2_eclipse_gas (data : List Nat) (l1BaseFee overhead scalar : Nat)
    (r r' : Bool) :
    selectorGas ⟨r, true⟩ data =
      (FlzCompressLen data).map (fun g => g * TxDataNonZeroGasEIP2028) ∧
    newL1CostFunc true l1BaseFee overhead scalar ⟨r, true⟩ data =
      newL1CostFunc true l1BaseFee overhead scalar ⟨r', true⟩ data := by
  constructor
  · show (FlzCompressLen data).map (fun c => c * TxDataNonZeroGasEIP2028 % U64) = _
    cases hf : FlzCompressLen data with
    | error e => rfl
    | ok g =>
      have hlt : g < U32 := FlzCompressLen_ok_lt data g hf
      simp only [Except.map]
      rw [Nat.mod_eq_of_lt (show g * TxDataNonZeroGasEIP2028 < U64 by
        have h2 : g * TxDataNonZeroGasEIP2028 ≤ (U32 - 1) * TxDataNonZeroGasEIP2028 :=
          Nat.mul_le_mul_right _ (by omega)
        have h3 : (U32 - 1) * TxDataNonZeroGasEIP2028 < U64 := by
          norm_num [U32, U64, TxDataNonZeroGasEIP2028]
        omega)]
  · rfl

/-- C4 (code bug exhibited): for inputs shorter than 13 bytes the
claim requires the literal-only cost of the whole input with no read
outside the buffer, but `FlzCompressLen` underflows the `uint32` loop
bound `b - 9` (with `b = len - 4`), enters the scan loop, and performs
an out-of-range read (a Go runtime panic): on the empty input and on
twelve zero bytes it panics instead of returning the literal-only
costs `flzLiterals 0 0 = 0` and `flzLiterals 12 0 = 13`. -/
theorem claim4_short_input_panics :
    FlzCompressLen [] = Except.error FlzErr.oob ∧
    FlzCompressLen (List.replicate 12 0) = Except.error FlzErr.oob ∧
    FlzCompressLen (List.replicate 13 0) = Except.ok (flzLiterals 13 0) ∧
    flzLiterals 0 0 = 0 ∧ flzLiterals 12 0 = 13 ∧ flzLiterals 13 0 = 14 :=
  ⟨rfl, rfl, rfl, rfl, rfl, rfl⟩

/-- C5: the hash used by `FlzCompressLen` equals
`((2654435769 * x) mod 2^32) >> 19` reduced modulo the 8192-entry
table size, with wraparound 32-bit multiplication. -/
theorem claim5_hash (x : Nat) (_hx : x < 4294967296) :
    flzHash x = ((2654435769 * x) % 2 ^ 32) >>> 19 % 8192 := by
  have h13 : (8191 : Nat) = 2 ^ 13 - 1 := by norm_num
  unfold flzHash
  rw [h13, Nat.and_pow_two_sub_one_eq_mod]
  norm_num [U32]

/-- C5 witness: the hash law at an input whose 32-bit product
overflows. -/
theorem claim5_hash_witness :
    4000000000 < 4294967296 ∧
    flzHash 4000000000 = ((2654435769 * 4000000000) % 2 ^ 32) >>> 19 % 8192 :=
  ⟨by norm_num, claim5_hash 4000000000 (by norm_num)⟩

/-- C8: with the feature gate off the calculator returns the distinct
not-applicable outcome for every payload and oracle parameters, as a
normal result (an `ok` value, not an error), and that outcome differs
from every `(fee, gasUsed)` result, in particular from a zero fee. -/
theorem claim8_gate_off (l1BaseFee overhead scalar : Nat)
    (upg : UpgradeActivation) (data : List Nat) :
    newL1CostFunc false l1BaseFee overhead scalar upg data =
      Except.ok L1CostResult.notApplicable ∧
    ∀ fee gasUsed : Nat,
      L1CostResult.notApplicable ≠ L1CostResult.result fee gasUsed :=
  ⟨rfl, fun _ _ h => L1CostResult.noConfusion h⟩

/-- C8 witness: the gate-off outcome at concrete inputs, distinct from
a zero-fee result. -/
theorem claim8_gate_off_witness :
    newL1CostFunc false 1 2 3 ⟨true, true⟩ [7, 0, 9] =
      Except.ok L1CostResult.notApplicable ∧
    L1CostResult.notApplicable ≠ L1CostResult.result 0 0 :=
  ⟨(claim8_gate_off 1 2 3 ⟨true, true⟩ [7, 0, 9]).1,
   (claim8_gate_off 1 2 3 ⟨true, true⟩ [7, 0, 9]).2 0 0⟩

/-- C9: with `l1BaseFee = 1`, `overhead = 1`, `scalar = 1_000_000` and
the serialized empty-data reference transaction, the pre-Eclipse fee
is 1569 with Regolith inactive and 481 with Regolith active, in both
file versions of the calculator. -/
theorem claim9_reference_vectors :
    newL1CostFuncV1 true 1 1 1000000 false (NewL1CostDataV1 emptyTxPayload) =
      some (1569, 1569) ∧
    newL1CostFuncV1 true 1 1 1000000 true (NewL1CostDataV1 emptyTxPayload) =
      some (481, 481) ∧
    newL1CostFunc true 1 1 1000000 ⟨false, false⟩ emptyTxPayload =
      Except.ok (L1CostResult.result 1569 1569) ∧
    newL1CostFunc true 1 1 1000000 ⟨true, false⟩ emptyTxPayload =
      Except.ok (L1CostResult.result 481 481) :=
  ⟨rfl, rfl, rfl, rfl⟩

theorem countBytes_replicate_one (k : Nat) :
    countBytes (List.replicate k 1) = (0, k) := by
  have hgo : ∀ (k : Nat) (p : Nat × Nat),
      List.foldl
        (fun acc b => if b = 0 then (acc.1 + 1, acc.2) else (acc.1, acc.2 + 1))
        p (List.replicate k (1 : Nat)) = (p.1, p.2 + k) := by
    intro k
    induction k with
    | zero => intro p; simp
    | succ k ih =>
      intro p
      rw [List.replicate_succ, List.foldl_cons]
      simp only [one_ne_zero, if_false]
      rw [ih]
      simp [Nat.add_assoc, Nat.add_comm 1 k]
  unfold countBytes
  rw [hgo]
  simp

/-- C3 counterexample: the pre-Eclipse gas is computed in `uint64`
arithmetic, so on the (explicit, astronomically long) payload of
`2^62` one-bytes with Regolith active the gas amount wraps to 0
instead of the claimed `z * 4 + o * 16 = 2^66`. -/
theorem claim3_counterexample :
    ¬ (selectorGas ⟨true, false⟩ (List.replicate (2 ^ 62) 1) =
        Except.ok (0 * TxDataZeroGas + 2 ^ 62 * TxDataNonZeroGasEIP2028)) := by
  intro h
  have hc : countBytes (List.replicate (2 ^ 62) 1) = (0, 2 ^ 62) :=
    countBytes_replicate_one _
  rw [show selectorGas ⟨true, false⟩ (List.replicate (2 ^ 62) 1) =
        Except.ok (((countBytes (List.replicate (2 ^ 62) 1)).1 * TxDataZeroGas +
          (countBytes (List.replicate (2 ^ 62) 1)).2 * TxDataNonZeroGasEIP2028) % U64)
      from rfl, hc] at h
  rw [Except.ok.injEq] at h
  norm_num [TxDataZeroGas, TxDataNonZeroGasEIP2028, U64] at h

/-- C3 (amended): when Eclipse is inactive the gas amount is
`(z * 4 + o * 16) mod 2^64` with Regolith active and
`(z * 4 + (o + 68) * 16) mod 2^64` otherwise (the constant 68
preserved exactly); whenever the pre-Regolith value is below `2^64`
(every upstream-validated payload) both equal the exact
`z * 4 + o * 16`, resp. `z * 4 + (o + 68) * 16`. -/
theorem claim3_gas_formula (upg : UpgradeActivation) (data : List Nat)
    (z o : Nat) (hzo : countBytes data = (z, o))
    (he : upg.isEclipseActive = false) :
    selectorGas upg data =
      Except.ok ((z * TxDataZeroGas +
        (if upg.isRegolithActive then o * TxDataNonZeroGasEIP2028
         else (o + 68) * TxDataNonZeroGasEIP2028)) % U64) ∧
    (z * TxDataZeroGas + (o + 68) * TxDataNonZeroGasEIP2028 < U64 →
      selectorGas upg data =
        Except.ok (z * TxDataZeroGas +
          (if upg.isRegolithActive then o * TxDataNonZeroGasEIP2028
           else (o + 68) * TxDataNonZeroGasEIP2028))) := by
  have hz : (countBytes data).1 = z := by rw [hzo]
  have ho : (countBytes data).2 = o := by rw [hzo]
  constructor
  · unfold selectorGas
    rw [he]
    dsimp only
    rw [hz, ho]
    cases hr : upg.isRegolithActive <;> simp
  · intro hlt
    unfold selectorGas
    rw [he]
    dsimp only
    rw [hz, ho]
    have h16 : o * TxDataNonZeroGasEIP2028 ≤ (o + 68) * TxDataNonZeroGasEIP2028 :=
      Nat.mul_le_mul_right _ (Nat.le_add_right o 68)
    cases hr : upg.isRegolithActive <;> simp <;> rw [Nat.mod_eq_of_lt (by omega)]

/-- C3 witness: the amended gas formulas at small concrete inputs, with
the overflow bound discharged. -/
theorem claim3_gas_formula_witness :
    countBytes [0, 5, 0, 7, 9] = (2, 3) ∧
    selectorGas ⟨true, false⟩ [0, 5, 0, 7, 9] =
      Except.ok (2 * TxDataZeroGas + 3 * TxDataNonZeroGasEIP2028) ∧
    selectorGas ⟨false, false⟩ [0, 5, 0, 7, 9] =
      Except.ok (2 * TxDataZeroGas + (3 + 68) * TxDataNonZeroGasEIP2028) :=
  ⟨rfl,
   by
    have h := (claim3_gas_formula ⟨true, false⟩ [0, 5, 0, 7, 9] 2 3 rfl rfl).2
      (by norm_num [TxDataZeroGas, TxDataNonZeroGasEIP2028, U64])
    simpa using h,
   by
    have h := (claim3_gas_formula ⟨false, false⟩ [0, 5, 0, 7, 9] 2 3 rfl rfl).2
      (by norm_num [TxDataZeroGas, TxDataNonZeroGasEIP2028, U64])
    simpa using h⟩

/-- C6: during the scan, a candidate whose previous offset `r = ht[h]`
lies 8192 or more bytes before the current offset (in wrapping 32-bit
distance) is never accepted: the comparison value is widened to
`mask + 1 = 16777216`, the masked 24-bit window `s` can never equal
it, and the inner loop takes exactly the no-match step (so no match
cost is charged for such a pair). -/
theorem claim6_distance_rule (ib : List Nat) (bm9 fuel : Nat) (ht : Nat → Nat)
    (i w : Nat) (hw : flzU32 ib i = Except.ok w) (hi : i < bm9)
    (hd : 8192 ≤ wsub32 i (ht (flzHash (w % 16777216)))) :
    flzC ib (ht (flzHash (w % 16777216)))
        (wsub32 i (ht (flzHash (w % 16777216)))) = Except.ok 16777216 ∧
    w % 16777216 ≠ 16777216 ∧
    flzInner ib bm9 (fuel + 1) ht i =
      flzInner ib bm9 fuel (htSet ht (flzHash (w % 16777216)) (i % U32))
        ((i + 1) % U32) := by
  have hc : flzC ib (ht (flzHash (w % 16777216)))
      (wsub32 i (ht (flzHash (w % 16777216)))) = Except.ok 16777216 := by
    unfold flzC
    rw [if_neg (Nat.not_lt.mpr hd)]
  have hs : w % 16777216 < 16777216 := Nat.mod_lt _ (by norm_num)
  refine ⟨hc, by omega, ?_⟩
  rw [flzInner, hw]
  dsimp only
  rw [hc]
  dsimp only
  rw [if_neg (by omega : ¬ bm9 ≤ i)]
  rw [if_neg (by omega : ¬ w % 16777216 = 16777216)]

/-- C6 witness: a far candidate (previous offset 20000, current offset
2) at concrete inputs is rejected and the loop steps on without a
match. -/
theorem claim6_distance_rule_witness :
    flzC [1, 2, 3, 4, 5, 6] 20000 (wsub32 2 20000) = Except.ok 16777216 ∧
    100992003 % 16777216 ≠ 16777216 ∧
    flzInner [1, 2, 3, 4, 5, 6] 5 (3 + 1) (fun _ => 20000) 2 =
      flzInner [1, 2, 3, 4, 5, 6] 5 3
        (htSet (fun _ => 20000) (flzHash (100992003 % 16777216)) (2 % U32))
        ((2 + 1) % U32) :=
  claim6_distance_rule [1, 2, 3, 4, 5, 6] 5 3 (fun _ => 20000) 2 100992003
    rfl (by norm_num) (by decide)

/-- C7: the literal-cost rule charges a run of `r` unmatched bytes
`33 * (r / 32)` plus, when `r mod 32` is nonzero, `(r mod 32) + 1`;
the match-cost rule charges a match of length `l ≥ 3` exactly
`3 * (1 + (l - 3) / 262)`, minus 1 when `l < 9` (stated where the
`uint32` accumulator does not wrap). -/
theorem claim7_cost_rules :
    (∀ r n : Nat, n + 33 * (r / 32) + r % 32 + 1 < U32 →
      flzLiterals r n =
        n + 33 * (r / 32) + (if r % 32 ≠ 0 then r % 32 + 1 else 0)) ∧
    (∀ l n : Nat, 3 ≤ l → l < U32 → n + 3 * (1 + (l - 3) / 262) < U32 →
      flzMatchCharge l n =
        n + 3 * (1 + (l - 3) / 262) - (if l < 9 then 1 else 0)) := by
  constructor
  · intro r n hlt
    unfold flzLiterals
    dsimp only
    split
    · unfold U32 at *
      omega
    · unfold U32 at *
      omega
  · intro l n h3 hl hn
    unfold flzMatchCharge
    dsimp only
    have hw3 : wsub32 l 3 = l - 3 := by
      unfold wsub32 U32 at *
      omega
    rw [hw3, Nat.mod_eq_of_lt hn]
    split
    · unfold wsub32 U32 at *
      omega
    · omega

/-- C7 witness: the two cost rules at concrete inputs (a 45-byte
literal run onto accumulator 10, and a length-5 match onto
accumulator 7). -/
theorem claim7_cost_rules_witness :
    flzLiterals 45 10 =
      10 + 33 * (45 / 32) + (if 45 % 32 ≠ 0 then 45 % 32 + 1 else 0) ∧
    flzMatchCharge 5 7 = 7 + 3 * (1 + (5 - 3) / 262) - (if 5 < 9 then 1 else 0) :=
  ⟨claim7_cost_rules.1 45 10 (by decide),
   claim7_cost_rules.2 5 7 (by decide) (by decide) (by decide)⟩

/-- C10: with the feature gate on and the payload and upgrade flags
fixed (so the gas amount `g` is fixed), both returned values are
monotone non-decreasing in the oracle parameters: raising `overhead`
never lowers `l1GasUsed` or the fee, and raising `l1BaseFee` or
`scalar` never lowers the fee. -/
theorem claim10_monotone (upg : UpgradeActivation) (data : List Nat)
    (g bf bf' ov ov' sc sc' f u f' u' : Nat)
    (hg : selectorGas upg data = Except.ok g)
    (hbf : bf ≤ bf') (hov : ov ≤ ov') (hsc : sc ≤ sc')
    (e : newL1CostFunc true bf ov sc upg data =
      Except.ok (L1CostResult.result f u))
    (e' : newL1CostFunc true bf' ov' sc' upg data =
      Except.ok (L1CostResult.result f' u')) :
    f ≤ f' ∧ u ≤ u' := by
  simp only [newL1CostFunc, hg, Except.map, Bool.true_eq_false, if_false,
    Except.ok.injEq, L1CostResult.result.injEq] at e e'
  obtain ⟨hf, hu⟩ := e
  obtain ⟨hf', hu'⟩ := e'
  subst hf hu hf' hu'
  constructor
  · exact Nat.div_le_div_right
      (Nat.mul_le_mul (Nat.mul_le_mul (Nat.add_le_add_left hov g) hbf) hsc)
  · exact Nat.add_le_add_left hov g

/-- C10 witness: raising the three oracle parameters at a concrete
payload raises neither returned value downwards (fee 16 to 84, gas
used 16 to 21). -/
theorem claim10_monotone_witness : (16 : Nat) ≤ 84 ∧ (16 : Nat) ≤ 21 :=
  claim10_monotone ⟨true, false⟩ [1] 16 1 2 0 5 1000000 2000000 16 16 84 21
    rfl (by norm_num) (by norm_num) (by norm_num) rfl rfl

end RollupL1Cost
